import Mathlib

/-!
Verification of the dispatch core of the taxi-application backend.

The development shallowly embeds the Socket.IO dispatch layer of
`server.js` (presence registry, proximity queries, accept/decline
handlers, disconnect cleanup), the ride-booking routes of
`src/routes/rides.js` / `src/routes/users.js` (book-driver with its
response-window timeout, the `/available` query, decline), and the
persisted `Ride` schema of `src/models/Ride.js`.

Conventions of the embedding:
- JavaScript objects used as keyed maps (`driverLocations`,
  `driverSocketMap`, `activeRides`) are association lists in insertion
  order; `Object.entries` iteration is list traversal, property
  assignment is `setKey`, `delete` is `delKey`.
- The JS `Set` `onlineDrivers` is a duplicate-free insertion-ordered
  list with `addSet` for `Set.add`.
- JS numbers are modelled as `ℚ` where they are stored and compared for
  truthiness, and as `ℝ` inside the haversine trigonometry.
- JS truthiness tests (`!driverId`, `!latitude`) are `jsFalsyStr` /
  `jsFalsyNum`: `undefined`/`null` are `none`, the empty string and the
  number `0` are falsy values of `some`.
- The persisted ride collection is a function from ride id to an
  optional ride record; `Model.findById` is application, `save` is
  `saveRide`.
- Socket emissions are recorded as an `Emit` list; payload contents are
  not modelled, only the target (room or socket) and the event name.
-/

namespace TaxiDispatch

/-- Truthiness of an optional JS string: `undefined`/`null` (`none`) and
the empty string are falsy, mirroring the guards `if (!driverId) return`. -/
def jsFalsyStr : Option String → Bool
  | none => true
  | some s => s == ""

/-- Truthiness of an optional JS number: `undefined`/`null` (`none`) and
the number `0` are falsy, mirroring guards such as `if (!latitude) return`.
This faithfully reproduces that JavaScript `!0` is `true`. -/
def jsFalsyNum : Option ℚ → Bool
  | none => true
  | some v => v == 0

/-- One entry of the in-memory `driverLocations` object:
`{ latitude, longitude, updatedAt: Date.now() }`. -/
structure DriverLoc where
  latitude : ℚ
  longitude : ℚ
  updatedAt : ℕ
deriving DecidableEq, Repr

/-- One entry of the in-memory `activeRides` object:
`{ driverId, riderId, status }`. -/
structure RideSession where
  driverId : String
  riderId : String
  status : String
deriving DecidableEq, Repr

/-- A socket emission: `io.to(room).emit(event, ...)` or
`io.to(socketId).emit(event, ...)`. -/
inductive Emit where
  | toRoom (room : String) (event : String)
  | toSock (sid : String) (event : String)
deriving DecidableEq, Repr

/-- The four in-memory registries of `server.js`:
`driverLocations`, `onlineDrivers`, `driverSocketMap`, `activeRides`. -/
structure ServerState where
  driverLocations : List (String × DriverLoc)
  onlineDrivers : List String
  driverSocketMap : List (String × String)
  activeRides : List (String × RideSession)
deriving DecidableEq, Repr

/-- JS object property assignment `obj[k] = v`: replace in place when the
key exists, otherwise append. -/
def setKey {β : Type} (l : List (String × β)) (k : String) (v : β) :
    List (String × β) :=
  if l.any (fun p => p.1 == k) then
    l.map (fun p => if p.1 == k then (k, v) else p)
  else l ++ [(k, v)]

/-- JS `delete obj[k]`. -/
def delKey {β : Type} (l : List (String × β)) (k : String) :
    List (String × β) :=
  l.filter (fun p => p.1 != k)

/-- JS property read `obj[k]` (`undefined` becomes `none`). -/
def getKey {β : Type} (l : List (String × β)) (k : String) : Option β :=
  (l.find? (fun p => p.1 == k)).map Prod.snd

/-- JS `Set.add`: append when absent, no-op when present. -/
def addSet (s : List String) (d : String) : List String :=
  if s.contains d then s else s ++ [d]

/-- The inline dedupe push used by decline and timeout:
`if (!arr.find(d => d.toString() === id.toString())) arr.push(id)`. -/
def pushIfAbsent (l : List String) (d : String) : List String :=
  if l.contains d then l else l ++ [d]

/-- Handler for `socket.on('driverOnline')` in `server.js`:
`onlineDrivers.add(driverId); driverSocketMap[driverId] = socket.id`. -/
def driverOnline (st : ServerState) (socketId : String)
    (driverId : Option String) : ServerState :=
  if jsFalsyStr driverId then st
  else
    let d := driverId.getD ""
    { st with
      onlineDrivers := addSet st.onlineDrivers d
      driverSocketMap := setKey st.driverSocketMap d socketId }

/-- Payload of `driverLocationUpdate`:
`{ driverId, latitude, longitude }` with each field possibly absent. -/
structure LocPayload where
  driverId : Option String
  latitude : Option ℚ
  longitude : Option ℚ
deriving DecidableEq, Repr

/-- Handler for `socket.on('driverLocationUpdate')` in `server.js`.
Guard: `if (!driverId || !latitude || !longitude) return;` then
`if (!onlineDrivers.has(driverId)) return;` then store the location and
forward a `carLocationUpdate` to the ride room of every `in_progress`
active ride of this driver. -/
def driverLocationUpdate (st : ServerState) (p : LocPayload) (now : ℕ) :
    ServerState × List Emit :=
  if jsFalsyStr p.driverId || jsFalsyNum p.latitude || jsFalsyNum p.longitude then
    (st, [])
  else
    let d := p.driverId.getD ""
    if st.onlineDrivers.contains d then
      ({ st with
         driverLocations :=
           setKey st.driverLocations d
             ⟨p.latitude.getD 0, p.longitude.getD 0, now⟩ },
       st.activeRides.filterMap (fun q =>
         if q.2.driverId == d && q.2.status == "in_progress" then
           some (Emit.toRoom ("ride_" ++ q.1) "carLocationUpdate")
         else none))
    else (st, [])

/-- Handler for `socket.on('startRide')` in `server.js`:
`activeRides[rideId] = { driverId, riderId, status: 'in_progress' }`. -/
def startRide (st : ServerState)
    (rideId driverId riderId : Option String) : ServerState × List Emit :=
  if jsFalsyStr rideId || jsFalsyStr driverId || jsFalsyStr riderId then (st, [])
  else
    let rid := rideId.getD ""
    ({ st with
       activeRides :=
         setKey st.activeRides rid
           ⟨driverId.getD "", riderId.getD "", "in_progress"⟩ },
     [Emit.toRoom ("ride_" ++ rid) "rideStarted"])

/-- Handler for `socket.on('endRide')` in `server.js`:
`if (activeRides[rideId]) activeRides[rideId].status = 'completed'`,
then emit `rideEnded` to the ride room unconditionally. -/
def endRide (st : ServerState) (rideId : Option String) :
    ServerState × List Emit :=
  if jsFalsyStr rideId then (st, [])
  else
    let rid := rideId.getD ""
    (match getKey st.activeRides rid with
     | some s =>
         { st with
           activeRides := setKey st.activeRides rid { s with status := "completed" } }
     | none => st,
     [Emit.toRoom ("ride_" ++ rid) "rideEnded"])

/-- Handler for `socket.on('disconnect')` in `server.js`. The source
iterates a snapshot of `Object.entries(driverSocketMap)` and, for every
entry bound to the dropped socket, deletes the driver from
`onlineDrivers`, `driverLocations` and `driverSocketMap`; since each
matching entry only triggers deletions keyed by its own driver id, the
net effect is the removal of every driver bound to `socketId` from the
three registries. -/
def disconnect (st : ServerState) (socketId : String) : ServerState :=
  let removed :=
    (st.driverSocketMap.filter (fun p => p.2 == socketId)).map Prod.fst
  { st with
    driverLocations := st.driverLocations.filter (fun p => !(removed.contains p.1))
    onlineDrivers := st.onlineDrivers.filter (fun d => !(removed.contains d))
    driverSocketMap := st.driverSocketMap.filter (fun p => !(removed.contains p.1)) }

/-- JavaScript `Math.atan2(y, x)` over the reals. -/
noncomputable def atan2 (y x : ℝ) : ℝ :=
  if 0 < x then Real.arctan (y / x)
  else if x < 0 then
    (if 0 ≤ y then Real.arctan (y / x) + Real.pi
     else Real.arctan (y / x) - Real.pi)
  else
    (if 0 < y then Real.pi / 2
     else if y < 0 then -(Real.pi / 2) else 0)

/-- The `getDistanceKm` helper of `server.js` (identical copies in
`src/routes/rides.js`): haversine great-circle distance in kilometers
with Earth radius 6371 km. -/
noncomputable def getDistanceKm (lat1 lon1 lat2 lon2 : ℝ) : ℝ :=
  let R : ℝ := 6371
  let dLat := (lat2 - lat1) * Real.pi / 180
  let dLon := (lon2 - lon1) * Real.pi / 180
  let a := Real.sin (dLat / 2) * Real.sin (dLat / 2) +
    Real.cos (lat1 * Real.pi / 180) * Real.cos (lat2 * Real.pi / 180) *
    Real.sin (dLon / 2) * Real.sin (dLon / 2)
  let c := 2 * atan2 (Real.sqrt a) (Real.sqrt (1 - a))
  R * c

/-- One value of the `nearby` mapping:
`{ latitude, longitude, distanceKm }`. -/
structure NearbyEntry where
  latitude : ℚ
  longitude : ℚ
  distanceKm : ℝ

/-- The scan loop shared by the proximity queries: iterate
`Object.entries(driverLocations)`, skip drivers not in `onlineDrivers`,
include those whose distance to the center is ≤ `radiusKm`. This is the
body of `socket.on('requestNearbyDrivers')` in `server.js`. -/
noncomputable def nearbyScan (st : ServerState) (lat lon radiusKm : ℚ) :
    List (String × NearbyEntry) :=
  st.driverLocations.filterMap (fun p =>
    if st.onlineDrivers.contains p.1 then
      if getDistanceKm lat lon p.2.latitude p.2.longitude ≤ (radiusKm : ℝ) then
        some (p.1,
          ⟨p.2.latitude, p.2.longitude,
           getDistanceKm lat lon p.2.latitude p.2.longitude⟩)
      else none
    else none)

/-- Payload of `requestNearbyDrivers`:
`{ latitude, longitude, radiusKm }` with `radiusKm` optional. -/
structure NearbyPayload where
  latitude : Option ℚ
  longitude : Option ℚ
  radiusKm : Option ℚ
deriving DecidableEq, Repr

/-- Handler for `socket.on('requestNearbyDrivers')` in `server.js`.
Guard `if (!latitude || !longitude) return;` (no reply, `none`), default
`radiusKm = 5` via destructuring when the field is absent, then the scan
loop; the result is replied privately as `driversUpdate`. -/
noncomputable def requestNearbyDrivers (st : ServerState) (p : NearbyPayload) :
    Option (List (String × NearbyEntry)) :=
  if jsFalsyNum p.latitude || jsFalsyNum p.longitude then none
  else some (nearbyScan st (p.latitude.getD 0) (p.longitude.getD 0)
    (p.radiusKm.getD 5))

/-- The loop of the REST endpoint `GET /api/drivers/nearby` in
`server.js`: identical to the socket scan except that it does not check
`onlineDrivers` membership. -/
noncomputable def restNearby (st : ServerState) (lat lon radiusKm : ℚ) :
    List (String × NearbyEntry) :=
  st.driverLocations.filterMap (fun p =>
    if getDistanceKm lat lon p.2.latitude p.2.longitude ≤ (radiusKm : ℝ) then
      some (p.1,
        ⟨p.2.latitude, p.2.longitude,
         getDistanceKm lat lon p.2.latitude p.2.longitude⟩)
    else none)

/-- The fields of the persisted `Ride` document that the dispatch
operations read or write: `status`, `assignedDriver`, `declinedDrivers`
(a mongoose array defaulting to `[]`), `rider`. -/
structure RideRec where
  status : String
  assignedDriver : Option String
  declinedDrivers : List String
  rider : String
deriving DecidableEq, Repr

/-- The persisted ride collection: `Ride.findById` is application. -/
abbrev RideStore := String → Option RideRec

/-- Persisting one document: `await ride.save()`. -/
def saveRide (store : RideStore) (rid : String) (r : RideRec) : RideStore :=
  fun k => if k = rid then some r else store k

/-- The reverse lookup used by `acceptRide`/`declineRide`:
`for (const [dId, sId] of Object.entries(driverSocketMap))
   if (sId === socket.id) { driverId = dId; break; }`. -/
def resolveDriver (m : List (String × String)) (socketId : String) :
    Option String :=
  (m.find? (fun p => p.2 == socketId)).map Prod.fst

/-- Handler for `socket.on('acceptRide')` in `server.js`: resolve the
driver from the socket binding, re-read the ride, and accept only when
`ride.status === 'pending'` and
`ride.assignedDriver?.toString() === driverId.toString()`; on success
set `status = 'accepted'`, save, and emit `rideAccepted` to the ride
room; otherwise return with no write and no emission. -/
def acceptRide (st : ServerState) (store : RideStore) (socketId : String)
    (rideId : Option String) : RideStore × List Emit :=
  match rideId with
  | none => (store, [])
  | some rid =>
    if rid = "" then (store, [])
    else
      match resolveDriver st.driverSocketMap socketId with
      | none => (store, [])
      | some driverId =>
        match store rid with
        | none => (store, [])
        | some ride =>
          if ride.status = "pending" ∧ ride.assignedDriver = some driverId then
            (saveRide store rid { ride with status := "accepted" },
             [Emit.toRoom ("ride_" ++ rid) "rideAccepted"])
          else (store, [])

/-- Handler for `socket.on('declineRide')` in `server.js`: resolve the
driver from the socket binding, re-read the ride, and when
`ride.status === 'pending'` set `status = 'open'`, push the driver onto
`declinedDrivers` unless already present, clear `assignedDriver`, save,
and emit `rideDeclined` to the ride room and `rideDeclineAck` to the
declining socket. -/
def declineRide (st : ServerState) (store : RideStore) (socketId : String)
    (rideId : Option String) : RideStore × List Emit :=
  match rideId with
  | none => (store, [])
  | some rid =>
    if rid = "" then (store, [])
    else
      match resolveDriver st.driverSocketMap socketId with
      | none => (store, [])
      | some driverId =>
        match store rid with
        | none => (store, [])
        | some ride =>
          if ride.status = "pending" then
            (saveRide store rid
              { ride with
                status := "open"
                declinedDrivers := pushIfAbsent ride.declinedDrivers driverId
                assignedDriver := none },
             [Emit.toRoom ("ride_" ++ rid) "rideDeclined",
              Emit.toSock socketId "rideDeclineAck"])
          else (store, [])

/-- The `setTimeout` handler of the book-driver route
(`src/routes/users.js` with a 30s window, `src/routes/rides.js` with a
60s window; the body is identical): re-read the ride by id
(`const fresh = await Ride.findById(ride._id)`), and only if
`fresh.status === 'pending'` set `status = 'open'`, push the offered
driver onto `declinedDrivers` unless already present, clear
`assignedDriver`, save, and notify driver (`rideRequestTimeout`, when a
socket is known) and ride room (`rideDeclined`); otherwise do nothing. -/
def rideRequestTimeout (store : RideStore) (rid driverId : String)
    (driverSock : Option String) : RideStore × List Emit :=
  match store rid with
  | none => (store, [])
  | some fresh =>
    if fresh.status = "pending" then
      (saveRide store rid
        { fresh with
          status := "open"
          declinedDrivers := pushIfAbsent fresh.declinedDrivers driverId
          assignedDriver := none },
       (match driverSock with
        | some s => [Emit.toSock s "rideRequestTimeout"]
        | none => []) ++ [Emit.toRoom ("ride_" ++ rid) "rideDeclined"])
    else (store, [])

/-- The `status` enum of the persisted `rideSchema` in
`src/models/Ride.js`:
`enum: ['open', 'accepted', 'completed', 'cancelled']`. Mongoose rejects
a `save` whose `status` is outside this list. -/
def rideStatusEnum : List String := ["open", "accepted", "completed", "cancelled"]

/-- The ride document constructed by `POST /book-driver`
(`src/routes/users.js`): `assignedDriver: driverId, status: 'pending'`,
restricted to the dispatch-relevant fields. -/
def bookDriverNewRide (riderId driverId : String) : RideRec :=
  { status := "pending"
    assignedDriver := some driverId
    declinedDrivers := []
    rider := riderId }

/-- The `GET /available` query of the rides router:
`{ status: 'open', $or: [ { declinedDrivers: { $exists: false } },
{ declinedDrivers: { $nin: [req.user._id] } } ] }`, with the optional
`$near` clause on `pickupLocation` abstracted as `geoOk` (absent
`declinedDrivers` is the empty list, on which `$nin` holds trivially). -/
def availableQueryMatch (ride : RideRec) (driverId : String) (geoOk : Bool) :
    Bool :=
  (ride.status == "open") && !(ride.declinedDrivers.contains driverId) && geoOk

/-- Registry invariant: every driver with a stored coordinate in
`driverLocations` is a member of the reachable set `onlineDrivers`. -/
def LocatedImpliesOnline (st : ServerState) : Prop :=
  ∀ p ∈ st.driverLocations, st.onlineDrivers.contains p.1 = true

/-- One presence-affecting unit of work of the dispatch core, as fired
by the runtime on an inbound event. -/
inductive PresenceStep : ServerState → ServerState → Prop
  | online (st : ServerState) (socketId : String) (driverId : Option String) :
      PresenceStep st (driverOnline st socketId driverId)
  | location (st : ServerState) (p : LocPayload) (now : ℕ) :
      PresenceStep st (driverLocationUpdate st p now).1
  | start (st : ServerState) (rideId driverId riderId : Option String) :
      PresenceStep st (startRide st rideId driverId riderId).1
  | finish (st : ServerState) (rideId : Option String) :
      PresenceStep st (endRide st rideId).1
  | drop (st : ServerState) (socketId : String) :
      PresenceStep st (disconnect st socketId)

/-! Helper lemmas about the registry primitives. -/

theorem mem_setKey {β : Type} {l : List (String × β)} {k : String} {v : β}
    {p : String × β} (h : p ∈ setKey l k v) : p = (k, v) ∨ p ∈ l := by
  unfold setKey at h
  split at h
  · rw [List.mem_map] at h
    obtain ⟨q, hq, hqe⟩ := h
    by_cases hk : q.1 == k
    · rw [if_pos hk] at hqe; exact Or.inl hqe.symm
    · rw [if_neg hk] at hqe; exact Or.inr (hqe ▸ hq)
  · rw [List.mem_append] at h
    rcases h with h | h
    · exact Or.inr h
    · simp at h; exact Or.inl (by simp [h])

theorem contains_addSet {s : List String} {d x : String}
    (h : s.contains x = true) : (addSet s d).contains x = true := by
  unfold addSet
  split
  · exact h
  · simp at h ⊢; exact Or.inl h

theorem self_mem_pushIfAbsent (l : List String) (d : String) :
    d ∈ pushIfAbsent l d := by
  unfold pushIfAbsent
  split
  · next h => simpa using h
  · simp

theorem mem_pushIfAbsent {l : List String} {d x : String}
    (h : x ∈ pushIfAbsent l d) : x = d ∨ x ∈ l := by
  unfold pushIfAbsent at h
  split at h
  · exact Or.inr h
  · rw [List.mem_append] at h
    rcases h with h | h
    · exact Or.inr h
    · simp at h; exact Or.inl h

theorem pushIfAbsent_append (l : List String) (d : String) :
    ∃ t, pushIfAbsent l d = l ++ t := by
  unfold pushIfAbsent
  split
  · exact ⟨[], by simp⟩
  · exact ⟨[d], rfl⟩

theorem count_pushIfAbsent (l : List String) (d x : String) :
    (pushIfAbsent l d).count x =
      if x = d then max (l.count x) 1 else l.count x := by
  unfold pushIfAbsent
  by_cases hm : l.contains d
  · rw [if_pos hm]
    by_cases hx : x = d
    · subst hx
      rw [if_pos rfl]
      have : 1 ≤ l.count x := List.count_pos_iff.2 (by simpa using hm)
      omega
    · rw [if_neg hx]
  · rw [if_neg hm]
    by_cases hx : x = d
    · subst hx
      rw [if_pos rfl, List.count_append]
      have h0 : l.count x = 0 := List.count_eq_zero.2 (by simpa using hm)
      simp [h0, List.count_singleton_self]
    · rw [if_neg hx, List.count_append]
      have : List.count x [d] = 0 := by
        simp [List.count_singleton]
        intro hdx
        exact hx hdx.symm
      omega

theorem getKey_eq_none {β : Type} {l : List (String × β)} {k : String}
    (h : ∀ p ∈ l, p.1 ≠ k) : getKey l k = none := by
  unfold getKey
  have : l.find? (fun p => p.1 == k) = none := by
    rw [List.find?_eq_none]
    intro p hp
    simpa using h p hp
  rw [this]
  rfl

/-- Characterization of the proximity scan: an entry is returned for a
driver exactly when the driver has a stored coordinate, is in the
reachable set, and that coordinate lies within the radius. -/
theorem mem_nearbyScan_iff (st : ServerState) (lat lon r : ℚ) (d : String)
    (e : NearbyEntry) :
    (d, e) ∈ nearbyScan st lat lon r ↔
      ∃ loc, (d, loc) ∈ st.driverLocations ∧
        st.onlineDrivers.contains d = true ∧
        getDistanceKm lat lon loc.latitude loc.longitude ≤ (r : ℝ) ∧
        e = ⟨loc.latitude, loc.longitude,
             getDistanceKm lat lon loc.latitude loc.longitude⟩ := by
  unfold nearbyScan
  rw [List.mem_filterMap]
  constructor
  · rintro ⟨⟨d', loc⟩, hmem, hf⟩
    simp only at hf
    split at hf
    · split at hf
      · next h1 h2 =>
        simp only [Option.some.injEq, Prod.mk.injEq] at hf
        obtain ⟨rfl, rfl⟩ := hf
        exact ⟨loc, hmem, h1, h2, rfl⟩
      · simp at hf
    · simp at hf
  · rintro ⟨loc, hmem, hon, hle, rfl⟩
    refine ⟨(d, loc), hmem, ?_⟩
    have hon' : d ∈ st.onlineDrivers := by simpa using hon
    simp [hon, hle, hon']

/-- Characterization of the REST proximity loop, which does not consult
the reachable-driver set. -/
theorem mem_restNearby_iff (st : ServerState) (lat lon r : ℚ) (d : String)
    (e : NearbyEntry) :
    (d, e) ∈ restNearby st lat lon r ↔
      ∃ loc, (d, loc) ∈ st.driverLocations ∧
        getDistanceKm lat lon loc.latitude loc.longitude ≤ (r : ℝ) ∧
        e = ⟨loc.latitude, loc.longitude,
             getDistanceKm lat lon loc.latitude loc.longitude⟩ := by
  unfold restNearby
  rw [List.mem_filterMap]
  constructor
  · rintro ⟨⟨d', loc⟩, hmem, hf⟩
    simp only at hf
    split at hf
    · next h2 =>
      simp only [Option.some.injEq, Prod.mk.injEq] at hf
      obtain ⟨rfl, rfl⟩ := hf
      exact ⟨loc, hmem, h2, rfl⟩
    · simp at hf
  · rintro ⟨loc, hmem, hle, rfl⟩
    refine ⟨(d, loc), hmem, ?_⟩
    simp [hle]

theorem getDistanceKm_comm (lat1 lon1 lat2 lon2 : ℝ) :
    getDistanceKm lat1 lon1 lat2 lon2 = getDistanceKm lat2 lon2 lat1 lon1 := by
  simp only [getDistanceKm]
  have e1 : (lat1 - lat2) * Real.pi / 180 / 2 =
      -((lat2 - lat1) * Real.pi / 180 / 2) := by ring
  have e2 : (lon1 - lon2) * Real.pi / 180 / 2 =
      -((lon2 - lon1) * Real.pi / 180 / 2) := by ring
  rw [e1, e2, Real.sin_neg, Real.sin_neg]
  ring_nf

theorem getDistanceKm_self (lat lon : ℝ) :
    getDistanceKm lat lon lat lon = 0 := by
  unfold getDistanceKm atan2
  simp

/-! Claim theorems. -/

/-- C9: the distance function is the haversine great-circle distance in
kilometers with Earth radius 6371 km (this is `getDistanceKm` as defined
above from `server.js`), and for all coordinate pairs distance(A,B)
equals distance(B,A), and distance(A,A) equals 0. -/
theorem getDistanceKm_symm_self (lat1 lon1 lat2 lon2 : ℝ) :
    getDistanceKm lat1 lon1 lat2 lon2 = getDistanceKm lat2 lon2 lat1 lon1 ∧
    getDistanceKm lat1 lon1 lat1 lon1 = 0 :=
  ⟨getDistanceKm_comm lat1 lon1 lat2 lon2, getDistanceKm_self lat1 lon1⟩

/-- C1: when the response-window timer fires for a ride, the handler
re-reads the persisted ride; if the status is still `pending` the ride
becomes `open` with the offering driver in `declinedDrivers` and
`assignedDriver` cleared, and if the status has left `pending` the
timeout changes nothing and emits nothing. -/
theorem rideRequestTimeout_guarded (store : RideStore) (rid driverId : String)
    (sock : Option String) (fresh : RideRec)
    (hread : store rid = some fresh) :
    (fresh.status = "pending" →
       (rideRequestTimeout store rid driverId sock).1 rid =
         some { status := "open"
                assignedDriver := none
                declinedDrivers := pushIfAbsent fresh.declinedDrivers driverId
                rider := fresh.rider } ∧
       driverId ∈ pushIfAbsent fresh.declinedDrivers driverId) ∧
    (fresh.status ≠ "pending" →
       rideRequestTimeout store rid driverId sock = (store, [])) := by
  constructor
  · intro hpend
    refine ⟨?_, self_mem_pushIfAbsent _ _⟩
    simp [rideRequestTimeout, hread, hpend, saveRide]
  · intro hnot
    simp [rideRequestTimeout, hread, hnot]

theorem rideRequestTimeout_guarded_witness :
    (fun k => if k = "ride1" then
        some (⟨"pending", some "dA", [], "r1"⟩ : RideRec) else none) "ride1" =
      some (⟨"pending", some "dA", [], "r1"⟩ : RideRec) ∧
    (rideRequestTimeout
        (fun k => if k = "ride1" then
          some (⟨"pending", some "dA", [], "r1"⟩ : RideRec) else none)
        "ride1" "dA" none).1 "ride1" =
      some (⟨"open", none, ["dA"], "r1"⟩ : RideRec) ∧
    "dA" ∈ pushIfAbsent [] "dA" :=
  ⟨rfl,
   (rideRequestTimeout_guarded
      (fun k => if k = "ride1" then
        some (⟨"pending", some "dA", [], "r1"⟩ : RideRec) else none)
      "ride1" "dA" none ⟨"pending", some "dA", [], "r1"⟩ rfl).1 rfl⟩

/-- C2: an `acceptRide` attempt succeeds exactly when the ride's status
is `pending` and the driver resolved from the socket binding equals the
ride's `assignedDriver`; on success the status becomes `accepted`, is
persisted, and `rideAccepted` is emitted to the ride room; on a guard
failure the store is unchanged and nothing is emitted. -/
theorem acceptRide_guarded (st : ServerState) (store : RideStore)
    (socketId rid driverId : String) (ride : RideRec)
    (hrid : rid ≠ "")
    (hres : resolveDriver st.driverSocketMap socketId = some driverId)
    (hread : store rid = some ride) :
    (ride.status = "pending" ∧ ride.assignedDriver = some driverId →
       acceptRide st store socketId (some rid) =
         (saveRide store rid { ride with status := "accepted" },
          [Emit.toRoom ("ride_" ++ rid) "rideAccepted"]) ∧
       (saveRide store rid { ride with status := "accepted" }) rid =
         some { ride with status := "accepted" }) ∧
    (¬ (ride.status = "pending" ∧ ride.assignedDriver = some driverId) →
       acceptRide st store socketId (some rid) = (store, [])) := by
  constructor
  · intro h
    constructor
    · simp [acceptRide, hrid, hres, hread, h.1, h.2]
    · simp [saveRide]
  · intro h
    simp [acceptRide, hrid, hres, hread, h]

theorem acceptRide_guarded_witness :
    ("ride1" : String) ≠ "" ∧
    resolveDriver [("dA", "s1")] "s1" = some "dA" ∧
    (acceptRide ⟨[], [], [("dA", "s1")], []⟩
        (fun k => if k = "ride1" then
          some (⟨"pending", some "dA", [], "r1"⟩ : RideRec) else none)
        "s1" (some "ride1") =
      (saveRide
        (fun k => if k = "ride1" then
          some (⟨"pending", some "dA", [], "r1"⟩ : RideRec) else none)
        "ride1" ⟨"accepted", some "dA", [], "r1"⟩,
       [Emit.toRoom ("ride_" ++ "ride1") "rideAccepted"]) ∧
     (saveRide
        (fun k => if k = "ride1" then
          some (⟨"pending", some "dA", [], "r1"⟩ : RideRec) else none)
        "ride1" ⟨"accepted", some "dA", [], "r1"⟩) "ride1" =
       some (⟨"accepted", some "dA", [], "r1"⟩ : RideRec)) :=
  ⟨by decide, rfl,
   (acceptRide_guarded ⟨[], [], [("dA", "s1")], []⟩
      (fun k => if k = "ride1" then
        some (⟨"pending", some "dA", [], "r1"⟩ : RideRec) else none)
      "s1" "ride1" "dA" ⟨"pending", some "dA", [], "r1"⟩
      (by decide) rfl rfl).1 ⟨rfl, rfl⟩⟩

/-- C3: the persisted ride schema's status enum is
`['open', 'accepted', 'completed', 'cancelled']`, so `pending` — the
very value the book-driver route writes — and `in_progress` are not
admissible persisted status values: the schema contradicts the booking
route, and mongoose validation rejects the created document. -/
theorem bookDriver_status_outside_schema_enum (riderId driverId : String) :
    (bookDriverNewRide riderId driverId).status = "pending" ∧
    rideStatusEnum.contains (bookDriverNewRide riderId driverId).status = false ∧
    rideStatusEnum.contains "in_progress" = false :=
  ⟨rfl, (by decide : rideStatusEnum.contains "pending" = false),
   by decide⟩

/-- C4: contrary to the claim, a proximity query whose center has a
zero component is silently dropped by the guard
`if (!latitude || !longitude) return;` in `requestNearbyDrivers` —
JavaScript treats the number `0` as falsy, the same slip as in the
location-update guard: the handler produces no `driversUpdate` reply at
all, even when a reachable driver lies within the radius. The first two
conjuncts show the drop for every state and radius, the third evaluates
the failing input — a reachable driver stored exactly at the center
(0, 10) — and the fourth shows the scan that the claim expects to be
returned is nonempty there. -/
theorem nearby_zero_center_query_dropped :
    (∀ (st : ServerState) (lon r : Option ℚ),
        requestNearbyDrivers st ⟨some 0, lon, r⟩ = none) ∧
    (∀ (st : ServerState) (lat r : Option ℚ),
        requestNearbyDrivers st ⟨lat, some 0, r⟩ = none) ∧
    requestNearbyDrivers ⟨[("dA", ⟨0, 10, 0⟩)], ["dA"], [("dA", "s1")], []⟩
        ⟨some 0, some 10, none⟩ = none ∧
    ∃ e, ("dA", e) ∈
      nearbyScan ⟨[("dA", ⟨0, 10, 0⟩)], ["dA"], [("dA", "s1")], []⟩ 0 10 5 := by
  refine ⟨?_, ?_, ?_, ?_⟩
  · intro st lon r
    simp [requestNearbyDrivers, jsFalsyNum]
  · intro st lat r
    simp [requestNearbyDrivers, jsFalsyNum]
  · simp [requestNearbyDrivers, jsFalsyNum]
  · refine ⟨⟨0, 10,
      getDistanceKm ((0 : ℚ) : ℝ) ((10 : ℚ) : ℝ) ((0 : ℚ) : ℝ) ((10 : ℚ) : ℝ)⟩,
      (mem_nearbyScan_iff ⟨[("dA", ⟨0, 10, 0⟩)], ["dA"], [("dA", "s1")], []⟩
          0 10 5 "dA" _).2
        ⟨⟨0, 10, 0⟩, by decide, by decide, ?_, rfl⟩⟩
    show getDistanceKm ((0 : ℚ) : ℝ) ((10 : ℚ) : ℝ) ((0 : ℚ) : ℝ) ((10 : ℚ) : ℝ)
      ≤ ((5 : ℚ) : ℝ)
    rw [getDistanceKm_self]
    norm_num

/-- C5: contrary to the claim, a location update whose coordinate
component is `0` is dropped by the guard
`if (!driverId || !latitude || !longitude) return;`, because JavaScript
treats the number `0` as falsy: a driver who announced presence and then
reports `(0, 0)` gets no stored coordinate and the handler is a no-op.
The first conjunct shows the drop for every state, the rest evaluate the
failing input after a `driverOnline` announcement. -/
theorem zero_coordinate_update_dropped :
    (∀ (st : ServerState) (did : Option String) (lon : Option ℚ) (now : ℕ),
        driverLocationUpdate st ⟨did, some 0, lon⟩ now = (st, [])) ∧
    driverLocationUpdate (driverOnline ⟨[], [], [], []⟩ "s1" (some "d1"))
        ⟨some "d1", some 0, some 0⟩ 7 =
      (driverOnline ⟨[], [], [], []⟩ "s1" (some "d1"), []) ∧
    getKey (driverLocationUpdate (driverOnline ⟨[], [], [], []⟩ "s1" (some "d1"))
        ⟨some "d1", some 0, some 0⟩ 7).1.driverLocations "d1" = none ∧
    (driverOnline ⟨[], [], [], []⟩ "s1" (some "d1")).onlineDrivers.contains "d1"
      = true := by
  refine ⟨?_, by decide, by decide, by decide⟩
  intro st did lon now
  simp [driverLocationUpdate, jsFalsyNum]

/-- C6 counterexample: a well-formed location update from a driver that
never announced presence does not register the driver: afterwards the
driver is not in the reachable set, has no stored coordinate, and the
proximity scan is empty. -/
theorem unregistered_update_dropped_counterexample :
    (driverLocationUpdate ⟨[], [], [], []⟩
        ⟨some "d7", some 1, some 2⟩ 0).1.onlineDrivers.contains "d7" = false ∧
    getKey (driverLocationUpdate ⟨[], [], [], []⟩
        ⟨some "d7", some 1, some 2⟩ 0).1.driverLocations "d7" = none ∧
    nearbyScan (driverLocationUpdate ⟨[], [], [], []⟩
        ⟨some "d7", some 1, some 2⟩ 0).1 1 2 5 = [] :=
  ⟨by decide, by decide, rfl⟩

/-- C6 (amended): a `driverLocationUpdate` from a driver not currently
in the reachable set is silently dropped — the registries are unchanged,
nothing is emitted, and the driver does not appear in a subsequent
proximity query. -/
theorem locationUpdate_requires_online (st : ServerState) (p : LocPayload)
    (now : ℕ) (d : String)
    (hid : p.driverId = some d)
    (hoff : st.onlineDrivers.contains d = false) :
    driverLocationUpdate st p now = (st, []) ∧
    ∀ lat lon r e, ¬ ((d, e) ∈
      nearbyScan (driverLocationUpdate st p now).1 lat lon r) := by
  have hstate : driverLocationUpdate st p now = (st, []) := by
    unfold driverLocationUpdate
    by_cases hg : jsFalsyStr p.driverId || jsFalsyNum p.latitude
        || jsFalsyNum p.longitude
    · rw [if_pos hg]
    · rw [if_neg hg]
      have hd : p.driverId.getD "" = d := by rw [hid]; rfl
      rw [hd]
      simp only [hoff, Bool.false_eq_true, if_false]
  refine ⟨hstate, ?_⟩
  intro lat lon r e hmem
  rw [hstate] at hmem
  obtain ⟨loc, _, hon, _, _⟩ := (mem_nearbyScan_iff st lat lon r d e).1 hmem
  rw [hoff] at hon
  exact Bool.false_ne_true hon

theorem locationUpdate_requires_online_witness :
    (⟨some "d7", some 1, some 2⟩ : LocPayload).driverId = some "d7" ∧
    (⟨[], ["other"], [], []⟩ : ServerState).onlineDrivers.contains "d7" = false ∧
    (driverLocationUpdate ⟨[], ["other"], [], []⟩ ⟨some "d7", some 1, some 2⟩ 0 =
      (⟨[], ["other"], [], []⟩, []) ∧
     ∀ lat lon r e, ¬ (("d7", e) ∈
       nearbyScan (driverLocationUpdate ⟨[], ["other"], [], []⟩
         ⟨some "d7", some 1, some 2⟩ 0).1 lat lon r)) :=
  ⟨rfl, by decide,
   locationUpdate_requires_online ⟨[], ["other"], [], []⟩
     ⟨some "d7", some 1, some 2⟩ 0 "d7" rfl (by decide)⟩

/-- C7: both the decline handler and the response-window timeout extend
`declinedDrivers` only by appending the declining driver when absent —
the result extends the old list, contains the driver, and every
element's multiplicity is unchanged except that the driver's becomes at
least (and at most, if it was absent) one — and a driver recorded in a
ride's `declinedDrivers` never matches the `available` listing query for
that ride. -/
theorem declined_drivers_append_only (st : ServerState) (store : RideStore)
    (socketId rid driverId : String) (sock : Option String) (ride r : RideRec)
    (geo : Bool)
    (hrid : rid ≠ "")
    (hres : resolveDriver st.driverSocketMap socketId = some driverId)
    (hread : store rid = some ride)
    (hpend : ride.status = "pending")
    (hmem : driverId ∈ r.declinedDrivers) :
    (declineRide st store socketId (some rid)).1 rid =
      some { status := "open"
             assignedDriver := none
             declinedDrivers := pushIfAbsent ride.declinedDrivers driverId
             rider := ride.rider } ∧
    (rideRequestTimeout store rid driverId sock).1 rid =
      some { status := "open"
             assignedDriver := none
             declinedDrivers := pushIfAbsent ride.declinedDrivers driverId
             rider := ride.rider } ∧
    (∃ t, pushIfAbsent ride.declinedDrivers driverId =
       ride.declinedDrivers ++ t) ∧
    driverId ∈ pushIfAbsent ride.declinedDrivers driverId ∧
    (∀ x, (pushIfAbsent ride.declinedDrivers driverId).count x =
       if x = driverId then max (ride.declinedDrivers.count x) 1
       else ride.declinedDrivers.count x) ∧
    availableQueryMatch r driverId geo = false := by
  refine ⟨?_, ?_, pushIfAbsent_append _ _, self_mem_pushIfAbsent _ _,
    fun x => count_pushIfAbsent _ _ _, ?_⟩
  · simp [declineRide, hrid, hres, hread, hpend, saveRide]
  · simp [rideRequestTimeout, hread, hpend, saveRide]
  · simp [availableQueryMatch, hmem]

theorem declined_drivers_append_only_witness :
    (declineRide ⟨[], [], [("dA", "s1")], []⟩
        (fun k => if k = "ride1" then
          some (⟨"pending", some "dA", [], "r1"⟩ : RideRec) else none)
        "s1" (some "ride1")).1 "ride1" =
      some (⟨"open", none, ["dA"], "r1"⟩ : RideRec) :=
  (declined_drivers_append_only ⟨[], [], [("dA", "s1")], []⟩
    (fun k => if k = "ride1" then
      some (⟨"pending", some "dA", [], "r1"⟩ : RideRec) else none)
    "s1" "ride1" "dA" none ⟨"pending", some "dA", [], "r1"⟩
    ⟨"open", none, ["dA"], "rX"⟩ true
    (by decide) rfl rfl rfl (by decide)).1

/-- C8: after the disconnect of a connection, every driver whose binding
was the dropped connection is removed from the reachable set, its stored
coordinate is removed, its routing-table binding is removed, and it no
longer appears in any proximity query. -/
theorem disconnect_no_stale_entries (st : ServerState) (sid d : String)
    (hbind : (d, sid) ∈ st.driverSocketMap) :
    (disconnect st sid).onlineDrivers.contains d = false ∧
    getKey (disconnect st sid).driverLocations d = none ∧
    getKey (disconnect st sid).driverSocketMap d = none ∧
    ∀ lat lon r e, ¬ ((d, e) ∈ nearbyScan (disconnect st sid) lat lon r) := by
  have hrem : d ∈ (st.driverSocketMap.filter (fun p => p.2 == sid)).map
      Prod.fst := by
    rw [List.mem_map]
    exact ⟨(d, sid), List.mem_filter.2 ⟨hbind, by simp⟩, rfl⟩
  have hon : (disconnect st sid).onlineDrivers.contains d = false := by
    by_contra hc
    rw [Bool.not_eq_false] at hc
    have hd : d ∈ st.onlineDrivers ∧ (d, sid) ∉ st.driverSocketMap := by
      simpa [disconnect] using hc
    exact hd.2 hbind
  refine ⟨hon, ?_, ?_, ?_⟩
  · apply getKey_eq_none
    intro p hp hpd
    have hp' : p ∈ st.driverLocations.filter (fun q =>
        !(((st.driverSocketMap.filter (fun p => p.2 == sid)).map
          Prod.fst).contains q.1)) := hp
    have h2 := (List.mem_filter.1 hp').2
    rw [hpd] at h2
    simp at h2
    exact h2 (by simpa using hrem)
  · apply getKey_eq_none
    intro p hp hpd
    have hp' : p ∈ st.driverSocketMap.filter (fun q =>
        !(((st.driverSocketMap.filter (fun p => p.2 == sid)).map
          Prod.fst).contains q.1)) := hp
    have h2 := (List.mem_filter.1 hp').2
    rw [hpd] at h2
    simp at h2
    exact h2 (by simpa using hrem)
  · intro lat lon r e hmemScan
    obtain ⟨loc, _, honline, _, _⟩ :=
      (mem_nearbyScan_iff (disconnect st sid) lat lon r d e).1 hmemScan
    rw [hon] at honline
    exact Bool.false_ne_true honline

theorem disconnect_no_stale_entries_witness :
    (("dA", "s1") ∈
      (⟨[("dA", ⟨2, 3, 0⟩)], ["dA"], [("dA", "s1")], []⟩ :
        ServerState).driverSocketMap) ∧
    (disconnect ⟨[("dA", ⟨2, 3, 0⟩)], ["dA"], [("dA", "s1")], []⟩
        "s1").onlineDrivers.contains "dA" = false ∧
    getKey (disconnect ⟨[("dA", ⟨2, 3, 0⟩)], ["dA"], [("dA", "s1")], []⟩
        "s1").driverLocations "dA" = none ∧
    getKey (disconnect ⟨[("dA", ⟨2, 3, 0⟩)], ["dA"], [("dA", "s1")], []⟩
        "s1").driverSocketMap "dA" = none :=
  ⟨by decide,
   (disconnect_no_stale_entries
      ⟨[("dA", ⟨2, 3, 0⟩)], ["dA"], [("dA", "s1")], []⟩ "s1" "dA"
      (by decide)).1,
   (disconnect_no_stale_entries
      ⟨[("dA", ⟨2, 3, 0⟩)], ["dA"], [("dA", "s1")], []⟩ "s1" "dA"
      (by decide)).2.1,
   (disconnect_no_stale_entries
      ⟨[("dA", ⟨2, 3, 0⟩)], ["dA"], [("dA", "s1")], []⟩ "s1" "dA"
      (by decide)).2.2.1⟩

/-- C10: every presence-affecting operation preserves the invariant that
a driver with a stored coordinate in `driverLocations` is a member of
the reachable set `onlineDrivers`: a coordinate is only stored for an
online driver, and removal from the reachable set deletes the stored
coordinate in the same step. -/
theorem presence_registry_invariant (st st' : ServerState)
    (hinv : LocatedImpliesOnline st) (hstep : PresenceStep st st') :
    LocatedImpliesOnline st' := by
  cases hstep with
  | online socketId driverId =>
    simp only [driverOnline]
    split
    · exact hinv
    · intro p hp
      exact contains_addSet (hinv p hp)
  | location p now =>
    simp only [driverLocationUpdate]
    by_cases hg : (jsFalsyStr p.driverId || jsFalsyNum p.latitude
        || jsFalsyNum p.longitude) = true
    · rw [if_pos hg]; exact hinv
    · rw [if_neg hg]
      by_cases hc : st.onlineDrivers.contains (p.driverId.getD "") = true
      · rw [if_pos hc]
        intro q hq
        rcases mem_setKey hq with hq1 | hq1
        · simpa [hq1] using hc
        · exact hinv q hq1
      · rw [if_neg hc]; exact hinv
  | start rideId driverId riderId =>
    simp only [startRide]
    by_cases hg : (jsFalsyStr rideId || jsFalsyStr driverId
        || jsFalsyStr riderId) = true
    · rw [if_pos hg]; exact hinv
    · rw [if_neg hg]; exact hinv
  | finish rideId =>
    simp only [endRide]
    by_cases hg : jsFalsyStr rideId = true
    · rw [if_pos hg]; exact hinv
    · rw [if_neg hg]
      cases getKey st.activeRides (rideId.getD "") with
      | none => exact hinv
      | some s => exact hinv
  | drop socketId =>
    intro q hq
    have h1 := List.mem_filter.1 hq
    have h2 : st.onlineDrivers.contains q.1 = true := hinv q h1.1
    have h3 : q.1 ∈ st.onlineDrivers := by simpa using h2
    have h4 : q.1 ∈ st.onlineDrivers ∧ (q.1, socketId) ∉ st.driverSocketMap :=
      ⟨h3, by simpa using h1.2⟩
    simpa [disconnect] using h4

theorem presence_registry_invariant_witness :
    LocatedImpliesOnline ⟨[("dA", ⟨2, 3, 0⟩)], ["dA"], [("dA", "s1")], []⟩ ∧
    LocatedImpliesOnline
      (driverOnline ⟨[("dA", ⟨2, 3, 0⟩)], ["dA"], [("dA", "s1")], []⟩
        "s2" (some "dB")) :=
  ⟨(by decide :
     ∀ p ∈ [("dA", (⟨2, 3, 0⟩ : DriverLoc))],
       (["dA"] : List String).contains p.1 = true),
   presence_registry_invariant
     ⟨[("dA", ⟨2, 3, 0⟩)], ["dA"], [("dA", "s1")], []⟩
     (driverOnline ⟨[("dA", ⟨2, 3, 0⟩)], ["dA"], [("dA", "s1")], []⟩
       "s2" (some "dB"))
     (by decide :
       ∀ p ∈ [("dA", (⟨2, 3, 0⟩ : DriverLoc))],
         (["dA"] : List String).contains p.1 = true)
     (PresenceStep.online _ "s2" (some "dB"))⟩

end TaxiDispatch
